import Mathlib

/-!
Shallow embedding of the Cat-OS microkernel core (src/kernel of the repository)
in Lean 4, used to settle the claims C1..C10 about the natural-language
specification against the C sources.

Conventions of the embedding:
* Machine integers (uint32_t) are modelled as Nat, with an explicit mod 2^32
  at the points where the C code can overflow (the message-id counter, the
  capability-id counter).  Signed status codes (status_t) are modelled as Int
  with the exact values of src/include/types.h.
* Kernel heap allocation (memory_alloc_pages for message records and queue
  headers) is modelled as always succeeding: mailboxes are Lean lists, so the
  out-of-memory branches of the C code are never taken in the model.  No claim
  under scrutiny depends on an allocation failing.
* Linked structures (ready queue, mailboxes) are modelled as lists of PIDs /
  message records; a PCB is identified by its PID, which is unique among live
  processes.
* Code that dereferences a possibly-NULL pointer without a check (the
  scheduler_get_current()->pid read in ipc_send) is modelled with Option:
  the function returns none exactly where the C code has undefined behaviour.
-/

namespace CatOS

/-! ## Status codes (src/include/types.h, status_t) -/

def statusSuccess : Int := 0

def statusError : Int := -1

def statusInvalidParam : Int := -2

def statusOutOfMemory : Int := -3

def statusPermissionDenied : Int := -4

def statusNotFound : Int := -5

def statusTimeout : Int := -6

def statusAlreadyExists : Int := -7

def statusNotImplemented : Int := -8

/-- Two's-complement image of a status_t value in a 32-bit register slot. -/
def statusToU32 (s : Int) : Nat := (s % (2 ^ 32 : Int)).toNat

/-! ## Process states (src/include/types.h, process_state_t) -/

inductive PState where
  | created
  | ready
  | running
  | blocked
  | terminated
deriving DecidableEq, Repr

/-- Process control block (src/include/kernel.h, struct pcb).  Only the fields
the claims are about are carried; the intrusive next/prev links are represented
by membership of the pid in the ready-queue list. -/
structure PCB where
  pid : Nat
  parentPid : Nat
  pstate : PState
  waitingFor : Nat
deriving DecidableEq, Repr

/-- Kernel-side message record (src/include/kernel.h, struct ipc_message).
The variable-length payload is a list of bytes; data_size is data.length. -/
structure Msg where
  msgId : Nat
  senderPid : Nat
  receiverPid : Nat
  msgType : Nat
  flags : Nat
  timestamp : Nat
  data : List Nat
deriving DecidableEq, Repr

/-- User-side ABI message (src/include/ipc_abi.h): 32-byte header plus up to
256 payload bytes.  dataSize is the header field; data the payload bytes. -/
structure AbiMsg where
  msgId : Nat
  senderPid : Nat
  receiverPid : Nat
  msgType : Nat
  flags : Nat
  timestamp : Nat
  dataSize : Nat
  data : List Nat
deriving DecidableEq, Repr

/-- Kernel state touched by the scheduler and the IPC layer:
current_process / ready_queue_head..tail (src/kernel/scheduler.c),
message_queues and next_msg_id (src/kernel/ipc.c), and the live PCBs
(src/kernel/process.c, process_table).  The mailbox map is an association
list because message_queues[pid] is created on demand. -/
structure KState where
  current : Option Nat
  ready : List Nat
  procs : List PCB
  mailboxes : List (Nat × List Msg)
  nextMsgId : Nat
deriving DecidableEq, Repr

/-! ## State helpers -/

/-- Look up a live PCB by pid (pointer identity in the C code). -/
def lookupProc (s : KState) (pid : Nat) : Option PCB :=
  s.procs.find? (fun p => p.pid == pid)

/-- Write the state field of the PCB with the given pid. -/
def setPState (procs : List PCB) (pid : Nat) (st : PState) : List PCB :=
  procs.map (fun p => if p.pid == pid then { p with pstate := st } else p)

/-- Write the waiting_for field of the PCB with the given pid. -/
def setWaiting (procs : List PCB) (pid : Nat) (w : Nat) : List PCB :=
  procs.map (fun p => if p.pid == pid then { p with waitingFor := w } else p)

def pstateOf (s : KState) (pid : Nat) : Option PState :=
  (lookupProc s pid).map PCB.pstate

def waitingOf (s : KState) (pid : Nat) : Option Nat :=
  (lookupProc s pid).map PCB.waitingFor

/-- Mailbox of a pid, none when message_queues[pid] was never created. -/
def mbGet (mbs : List (Nat × List Msg)) (pid : Nat) : Option (List Msg) :=
  (mbs.find? (fun e => e.fst == pid)).map Prod.snd

/-- Replace (or create) the mailbox of a pid. -/
def mbSet (mbs : List (Nat × List Msg)) (pid : Nat) (q : List Msg) :
    List (Nat × List Msg) :=
  if (mbs.find? (fun e => e.fst == pid)).isSome then
    mbs.map (fun e => if e.fst == pid then (pid, q) else e)
  else
    mbs ++ [(pid, q)]

/-! ## Scheduler (src/kernel/scheduler.c) -/

/-- scheduler_remove_from_ready.  The C code unlinks by pointer surgery with
no membership check: for a node that is in the queue the surgery is an
ordinary erase, but for a node with NULL links that is not in the queue it
executes head = process->next (NULL) and tail = process->prev (NULL), wiping
the whole queue.  The list model reproduces both cases. -/
def scheduler_remove_from_ready (q : List Nat) (pid : Nat) : List Nat :=
  if q.contains pid then q.erase pid else []

/-- scheduler_add_to_ready: remove first (see above), then append at tail. -/
def scheduler_add_to_ready (q : List Nat) (pid : Nat) : List Nat :=
  scheduler_remove_from_ready q pid ++ [pid]

/-- scheduler_find_process: walks only the ready queue, then checks
current_process.  A PCB that is neither queued nor current is not found. -/
def scheduler_find_process (s : KState) (pid : Nat) : Option PCB :=
  if s.ready.contains pid then lookupProc s pid
  else
    match s.current with
    | some c => if c == pid then lookupProc s pid else none
    | none => none

/-- scheduler_switch_to: current_process = next; next->state = RUNNING;
the register-level context_switch has no effect on the modelled state. -/
def scheduler_switch_to (s : KState) (next : Nat) : KState :=
  { s with current := some next, procs := setPState s.procs next PState.running }

/-- scheduler_yield (src/kernel/scheduler.c lines 89-110).  Note the C code
re-enqueues the current task only when its state is PROCESS_READY (not
PROCESS_RUNNING), and clears current_process when the queue is empty. -/
def scheduler_yield (s : KState) : KState :=
  match s.ready with
  | [] => { s with current := none }
  | _ :: _ =>
    let s1 :=
      match s.current with
      | some c =>
          if pstateOf s c == some PState.ready then
            { s with ready := scheduler_add_to_ready s.ready c }
          else s
      | none => s
    match s1.ready with
    | [] => s1
    | h :: t => scheduler_switch_to { s1 with ready := t } h

/-- scheduler_unblock_process: only a PROCESS_BLOCKED task is set READY and
re-enqueued at the tail. -/
def scheduler_unblock_process (s : KState) (pid : Nat) : KState :=
  match lookupProc s pid with
  | some p =>
      if p.pstate == PState.blocked then
        { s with procs := setPState s.procs pid PState.ready,
                 ready := scheduler_add_to_ready s.ready pid }
      else s
  | none => s

/-- scheduler_block_current: mark the current task BLOCKED and yield. -/
def scheduler_block_current (s : KState) : KState :=
  match s.current with
  | some c => scheduler_yield { s with procs := setPState s.procs c PState.blocked }
  | none => s

/-! ## IPC (src/kernel/ipc.c) -/

/-- Core of ipc_add_to_queue on one mailbox: when the queue already holds
max_count (100) messages the oldest (head) is removed first, then the new
message is appended at the tail. -/
def queuePush (q : List Msg) (m : Msg) : List Msg :=
  let q1 := if 100 ≤ q.length then q.drop 1 else q
  q1 ++ [m]

/-- ipc_add_to_queue: creates the per-pid queue on demand (the allocation of
the queue header is modelled as succeeding), then pushes with the
drop-oldest-at-capacity rule. -/
def ipc_add_to_queue (s : KState) (pid : Nat) (m : Msg) : KState :=
  let q := (mbGet s.mailboxes pid).getD []
  { s with mailboxes := mbSet s.mailboxes pid (queuePush q m) }

/-- ipc_wakeup_receiver: looks the receiver up via scheduler_find_process and
unblocks it only if that lookup succeeds and the PCB is PROCESS_BLOCKED. -/
def ipc_wakeup_receiver (s : KState) (pid : Nat) : KState :=
  match scheduler_find_process s pid with
  | some p =>
      if p.pstate == PState.blocked then
        let s1 := scheduler_unblock_process s pid
        { s1 with procs := setWaiting s1.procs pid 0 }
      else s
  | none => s

/-- ipc_send (src/kernel/ipc.c lines 48-95).  Returns none exactly where the
C code dereferences scheduler_get_current() without a NULL check.  The
kernel-message allocation is modelled as succeeding. -/
def ipc_send (s : KState) (receiverPid : Nat) (userMsg : Option AbiMsg) :
    Option (Int × KState) :=
  match userMsg with
  | none => some (statusInvalidParam, s)
  | some m =>
    match scheduler_find_process s receiverPid with
    | none => some (statusNotFound, s)
    | some _ =>
      if 256 < m.dataSize then some (statusInvalidParam, s)
      else
        match s.current with
        | none => none
        | some c =>
          match lookupProc s c with
          | none => none
          | some cp =>
            let km : Msg :=
              { msgId := s.nextMsgId
                senderPid := cp.pid
                receiverPid := receiverPid
                msgType := m.msgType
                flags := m.flags
                timestamp := 0
                data := m.data.take m.dataSize }
            let s1 := { s with nextMsgId := (s.nextMsgId + 1) % 2 ^ 32 }
            let s2 := ipc_add_to_queue s1 receiverPid km
            let s3 := ipc_wakeup_receiver s2 receiverPid
            some (statusSuccess, s3)

/-- ipc_find_in_queue's scan over one mailbox: detach the first message whose
sender matches (sender_pid == 0 means any). -/
def detachFirst (senderPid : Nat) : List Msg → Option (Msg × List Msg)
  | [] => none
  | m :: rest =>
      if senderPid == 0 || m.senderPid == senderPid then some (m, rest)
      else
        match detachFirst senderPid rest with
        | none => none
        | some (k, rest') => some (k, m :: rest')

/-- ipc_find_in_queue: no queue or no match leaves the state unchanged. -/
def ipc_find_in_queue (s : KState) (pid : Nat) (senderPid : Nat) :
    Option Msg × KState :=
  match mbGet s.mailboxes pid with
  | none => (none, s)
  | some q =>
    match detachFirst senderPid q with
    | none => (none, s)
    | some (m, q') => (some m, { s with mailboxes := mbSet s.mailboxes pid q' })

/-- ipc_receive (src/kernel/ipc.c lines 98-137).  The result triple is
(status, message copied to the user buffer if any, new kernel state).
The C code, on block=true with no matching message, calls
scheduler_block_current() and then immediately returns STATUS_SUCCESS
without re-scanning the mailbox and without writing the user buffer. -/
def ipc_receive (s : KState) (senderPid : Nat) (userBuf : Bool) (block : Bool) :
    Int × Option Msg × KState :=
  match s.current with
  | none => (statusPermissionDenied, none, s)
  | some c =>
    match ipc_find_in_queue s c senderPid with
    | (none, s') =>
        if block then (statusSuccess, none, scheduler_block_current s')
        else (statusNotFound, none, s')
    | (some km, s') =>
        (statusSuccess, if userBuf then some km else none, s')

/-! ## Capabilities (src/kernel/capability.c, src/include/kernel.h) -/

/-- Capability types (src/include/types.h, capability_type_t). -/
def capProcess : Nat := 0

def capMemory : Nat := 1

def capDriver : Nat := 2

def capHardware : Nat := 3

def capSystem : Nat := 4

def capIpc : Nat := 5

/-- Permission bits (src/include/types.h). -/
def permRead : Nat := 0x01

def permWrite : Nat := 0x02

def permCreate : Nat := 0x08

def permDelete : Nat := 0x10

def permAlloc : Nat := 0x40

def permFree : Nat := 0x80

/-- Capability record (src/include/kernel.h, capability_t); the 16-byte
signature field is modelled by the 32-bit checksum the code actually
reads and writes through the uint32_t cast. -/
structure Cap where
  capId : Nat
  ownerPid : Nat
  capType : Nat
  permissions : Nat
  resourceId : Nat
  expirationTime : Nat
  signature : Nat
deriving DecidableEq, Repr

/-- The XOR checksum used by capability_generate_signature and
capability_verify_signature. -/
def capChecksum (c : Cap) : Nat :=
  c.capId ^^^ c.ownerPid ^^^ c.capType ^^^ c.permissions ^^^
    c.resourceId ^^^ c.expirationTime

def capability_generate_signature (c : Cap) : Cap :=
  { c with signature := capChecksum c }

def capability_verify_signature (c : Cap) : Bool :=
  capChecksum c == c.signature

/-- Global capability table (capabilities array plus next_cap_id);
capability_count equals the list length. -/
structure CapState where
  caps : List Cap
  nextCapId : Nat
deriving DecidableEq, Repr

/-- capability_check (src/kernel/capability.c lines 67-90): scan the table
for a capability of the right owner and type whose permission mask covers
the requested bits, that has not expired, and whose checksum verifies. -/
def capability_check (caps : List Cap) (pid capType permissions ticks : Nat) : Int :=
  if caps.any (fun c =>
      c.ownerPid == pid && c.capType == capType &&
      (c.permissions &&& permissions) == permissions &&
      (c.expirationTime == 0 || Nat.blt ticks c.expirationTime) &&
      capability_verify_signature c)
  then statusSuccess else statusPermissionDenied

/-- capability_create (src/kernel/capability.c lines 32-64): capped at
MAX_PROCESSES * 16 = 1024 entries; the page allocation for the record is
modelled as succeeding. -/
def capability_create (cs : CapState) (ownerPid capType permissions : Nat) :
    Option Cap × CapState :=
  if 1024 ≤ cs.caps.length then (none, cs)
  else
    let c := capability_generate_signature
      { capId := cs.nextCapId
        ownerPid := ownerPid
        capType := capType
        permissions := permissions
        resourceId := 0
        expirationTime := 0
        signature := 0 }
    (some c, { caps := cs.caps ++ [c], nextCapId := (cs.nextCapId + 1) % 2 ^ 32 })

/-- capability_grant (src/kernel/capability.c lines 138-159): only a current
process with PID 0 may grant; on success the stored capability's resource_id
is overwritten in place (without re-signing). -/
def capability_grant (cur : Option PCB) (cs : CapState)
    (pid capType permissions resourceId : Nat) : Int × CapState :=
  match cur with
  | none => (statusPermissionDenied, cs)
  | some c =>
    if c.pid ≠ 0 then (statusPermissionDenied, cs)
    else
      match capability_create cs pid capType permissions with
      | (none, cs') => (statusOutOfMemory, cs')
      | (some cap, cs') =>
          (statusSuccess,
           { cs' with caps := cs'.caps.map (fun k =>
               if k.capId == cap.capId then { k with resourceId := resourceId } else k) })

/-! ## Process creation (src/kernel/process.c) -/

/-- process_allocate_pid (src/kernel/process.c lines 251-274): probe
(next_pid + i) % MAX_PROCESSES for i = 0..63, skipping PID 0 and PIDs in
use; returns (pid, new next_pid), with pid = 0 signalling failure. -/
def process_allocate_pid (used : List Nat) (nextPid : Nat) : Nat × Nat :=
  match (List.range 64).find? (fun i =>
      let pid := (nextPid + i) % 64
      pid != 0 && !(used.contains pid)) with
  | some i => ((nextPid + i) % 64, (nextPid + i) % 64 + 1)
  | none => (0, nextPid)

/-- Process-table state relevant to process_create: the PIDs occupying
slots, the rolling next_pid, and the global capability table. -/
structure PTState where
  usedPids : List Nat
  nextPid : Nat
  caps : CapState
deriving DecidableEq, Repr

/-- process_create (src/kernel/process.c lines 30-91), restricted to the
slot search, PID allocation and the three capability_grant calls; the
page-directory and stack allocations are modelled as succeeding.  cur is
scheduler_get_current() at the time of the call. -/
def process_create (cur : Option PCB) (s : PTState) (parentPid : Nat) :
    Option PCB × PTState :=
  if 64 ≤ s.usedPids.length then (none, s)
  else
    let r := process_allocate_pid s.usedPids s.nextPid
    if r.fst = 0 then (none, s)
    else
      let p : PCB :=
        { pid := r.fst, parentPid := parentPid,
          pstate := PState.created, waitingFor := 0 }
      let cs1 := (capability_grant cur s.caps r.fst capProcess (permCreate ||| permDelete) 0).snd
      let cs2 := (capability_grant cur cs1 r.fst capMemory (permAlloc ||| permFree) 0).snd
      let cs3 := (capability_grant cur cs2 r.fst capIpc (permRead ||| permWrite) 0).snd
      (some p, { usedPids := s.usedPids ++ [r.fst], nextPid := r.snd, caps := cs3 })

/-! ## Syscall dispatch (src/kernel/syscall.c, src/kernel/interrupt.c) -/

/-- The 13 numbers registered in syscall_table by syscall_init. -/
def syscallRegistered (n : Nat) : Bool :=
  n == 0x01 || n == 0x02 || n == 0x03 || n == 0x04 ||
  n == 0x10 || n == 0x11 || n == 0x12 ||
  n == 0x20 || n == 0x21 || n == 0x22 ||
  n == 0x30 || n == 0x31 || n == 0x40

/-- Control-flow outcome of syscall_handler (src/kernel/syscall.c lines
55-80): which early-return is taken, or which table entry is invoked. -/
inductive SyscallOutcome where
  | rejectInvalid
  | rejectNoCurrent
  | rejectPermission
  | callHandler (num : Nat)
deriving DecidableEq, Repr

/-- The branch structure of syscall_handler: range/table check, then
scheduler_get_current() NULL check, then
capability_check(current->pid, eax, 0). -/
def syscall_gate (eax : Nat) (cur : Option PCB) (caps : List Cap) (ticks : Nat) :
    SyscallOutcome :=
  if 256 ≤ eax ∨ syscallRegistered eax = false then SyscallOutcome.rejectInvalid
  else
    match cur with
    | none => SyscallOutcome.rejectNoCurrent
    | some c =>
      if capability_check caps c.pid eax 0 ticks ≠ statusSuccess then
        SyscallOutcome.rejectPermission
      else SyscallOutcome.callHandler eax

/-- The final value of syscall_handler's local parameter eax: the status the
dispatcher computes as result of the syscall.  handlerResult stands for the
value returned by the invoked syscall_table entry. -/
def syscall_handler_localEax (eax : Nat) (cur : Option PCB) (caps : List Cap)
    (ticks : Nat) (handlerResult : Int) : Int :=
  match syscall_gate eax cur caps ticks with
  | SyscallOutcome.rejectInvalid => statusInvalidParam
  | SyscallOutcome.rejectNoCurrent => statusPermissionDenied
  | SyscallOutcome.rejectPermission => statusPermissionDenied
  | SyscallOutcome.callHandler _ => handlerResult

/-- The uniform trap frame built by the 0x80 stub (src/kernel/interrupt.c,
trap_frame_t). -/
structure TrapFrame where
  gs : Nat
  fs : Nat
  es : Nat
  ds : Nat
  edi : Nat
  esi : Nat
  ebp : Nat
  espDummy : Nat
  ebx : Nat
  edx : Nat
  ecx : Nat
  eax : Nat
  intNo : Nat
  errCode : Nat
  eip : Nat
  cs : Nat
  eflags : Nat
  userEsp : Nat
  userSs : Nat
deriving DecidableEq, Repr

/-- Effect of the C-level dispatcher call on the trap frame.  syscall.c
declares void syscall_handler(uint32_t eax, uint32_t ebx, uint32_t ecx,
uint32_t edx): all four register values are passed BY VALUE, the function
never receives a pointer to the frame, and its only write is the dead store
to its local parameter (eax = result).  A call through this prototype
therefore cannot modify the caller's trap frame, so the frame after the
dispatcher runs equals the frame before.  (The assembly stub
syscall_handler_wrapper actually calls a symbol syscall_dispatch(frame)
that is declared in kernel.h but defined nowhere in the repository.) -/
def syscall_dispatch_frame (f : TrapFrame) (_cur : Option PCB) (_caps : List Cap)
    (_ticks : Nat) (_handlerResult : Int) : TrapFrame := f

/-! ## Paging (src/kernel/memory.c) -/

/-- Entry lookup in a sparse array of 32-bit words; absent entries read as 0
(the directory and fresh tables are zeroed on allocation). -/
def entGet (l : List (Nat × Nat)) (i : Nat) : Nat :=
  match l.find? (fun e => e.fst == i) with
  | some e => e.snd
  | none => 0

/-- Entry write in a sparse array of 32-bit words. -/
def entSet (l : List (Nat × Nat)) (i v : Nat) : List (Nat × Nat) :=
  if (l.find? (fun e => e.fst == i)).isSome then
    l.map (fun e => if e.fst == i then (i, v) else e)
  else l ++ [(i, v)]

/-- One page directory plus the page tables it references, addressed by the
physical base address stored in the PDE; nextAlloc is the next page-aligned
physical address memory_alloc_physical would hand out. -/
structure MMState where
  pd : List (Nat × Nat)
  tables : List (Nat × List (Nat × Nat))
  nextAlloc : Nat
deriving DecidableEq, Repr

def tblGet (ts : List (Nat × List (Nat × Nat))) (a : Nat) : List (Nat × Nat) :=
  match ts.find? (fun e => e.fst == a) with
  | some e => e.snd
  | none => []

def tblSet (ts : List (Nat × List (Nat × Nat))) (a : Nat) (t : List (Nat × Nat)) :
    List (Nat × List (Nat × Nat)) :=
  if (ts.find? (fun e => e.fst == a)).isSome then
    ts.map (fun e => if e.fst == a then (a, t) else e)
  else ts ++ [(a, t)]

/-- memory_map_page (src/kernel/memory.c lines 115-145).  When the PDE is
not present a page table is allocated, zeroed, and the PDE is set to
table | 0x03 (read/write and present only - the requested flags are NOT
consulted for the PDE).  The PTE is then set to phys_addr | flags. -/
def memory_map_page (s : MMState) (va pa flags : Nat) : MMState :=
  let pdi := va >>> 22
  let pti := (va >>> 12) &&& 0x3FF
  let s1 :=
    if (entGet s.pd pdi) &&& 1 == 0 then
      { s with nextAlloc := s.nextAlloc + 4096,
               tables := tblSet s.tables s.nextAlloc [],
               pd := entSet s.pd pdi (s.nextAlloc ||| 3) }
    else s
  let ptAddr := (entGet s1.pd pdi) &&& 0xFFFFF000
  { s1 with tables :=
      tblSet s1.tables ptAddr (entSet (tblGet s1.tables ptAddr) pti (pa ||| flags)) }

/-! ## Concrete states used by the claim theorems -/

/-- A running user process with PID 1. -/
def pcbOne : PCB := { pid := 1, parentPid := 0, pstate := PState.running, waitingFor := 0 }

/-- Sender A: PID 10, currently running. -/
def pcbA : PCB := { pid := 10, parentPid := 0, pstate := PState.running, waitingFor := 0 }

/-- Receiver B: PID 11, Blocked after a blocking ipc_receive. -/
def pcbB : PCB := { pid := 11, parentPid := 0, pstate := PState.blocked, waitingFor := 0 }

/-- Kernel state for C2: A (PID 10) is current and Running, B (PID 11) is a
live PCB in state Blocked, hence neither on the ready queue nor current. -/
def sC2 : KState :=
  { current := some 10, ready := [], procs := [pcbA, pcbB],
    mailboxes := [], nextMsgId := 1 }

/-- A well-formed 4-byte user message addressed to PID 11. -/
def mC2 : AbiMsg :=
  { msgId := 0, senderPid := 99, receiverPid := 11, msgType := 1, flags := 0,
    timestamp := 0, dataSize := 4, data := [0xDE, 0xAD, 0xBE, 0xEF] }

/-- Kernel state for C3: PID 11 is current and Running with an empty mailbox,
PID 10 is Ready on the ready queue. -/
def sC3 : KState :=
  { current := some 11, ready := [10],
    procs := [{ pid := 11, parentPid := 0, pstate := PState.running, waitingFor := 0 },
              { pid := 10, parentPid := 0, pstate := PState.ready, waitingFor := 0 }],
    mailboxes := [], nextMsgId := 1 }

/-- The state the code reaches after ipc_receive(from=10, block=true) on sC3:
PID 11 is Blocked with waiting_for still 0, PID 10 runs. -/
def sC3after : KState :=
  { current := some 10, ready := [],
    procs := [{ pid := 11, parentPid := 0, pstate := PState.blocked, waitingFor := 0 },
              { pid := 10, parentPid := 0, pstate := PState.running, waitingFor := 0 }],
    mailboxes := [], nextMsgId := 1 }

/-- Kernel state for C5: task 1 is current and Running, task 2 is Ready at
the head of the (non-empty) ready queue. -/
def sC5 : KState :=
  { current := some 1, ready := [2],
    procs := [{ pid := 1, parentPid := 0, pstate := PState.running, waitingFor := 0 },
              { pid := 2, parentPid := 0, pstate := PState.ready, waitingFor := 0 }],
    mailboxes := [], nextMsgId := 1 }

/-- The state scheduler_yield produces from sC5: task 2 runs, the queue is
empty, and task 1 - still marked Running - is on no queue and not current. -/
def sC5after : KState :=
  { current := some 2, ready := [],
    procs := [{ pid := 1, parentPid := 0, pstate := PState.running, waitingFor := 0 },
              { pid := 2, parentPid := 0, pstate := PState.running, waitingFor := 0 }],
    mailboxes := [], nextMsgId := 1 }

/-- A fresh (zeroed) page directory; the next free physical frame the
allocator would return for a page table is 0x500000. -/
def mmC6 : MMState := { pd := [], tables := [], nextAlloc := 0x500000 }

/-- A ring-3 trap frame for interrupt 0x80 carrying syscall number 0xFF
in the saved eax slot. -/
def fC1 : TrapFrame :=
  { gs := 0x23, fs := 0x23, es := 0x23, ds := 0x23,
    edi := 0, esi := 0, ebp := 0, espDummy := 0,
    ebx := 0, edx := 0, ecx := 0, eax := 0xFF,
    intNo := 0x80, errCode := 0, eip := 0x400000, cs := 0x1B,
    eflags := 0x202, userEsp := 0, userSs := 0x23 }

/-- Sender PID 10, running, for the iterated-send run. -/
def pcb10r : PCB := { pid := 10, parentPid := 0, pstate := PState.running, waitingFor := 0 }

/-- Receiver PID 11, Ready and on the ready queue, for the iterated-send run. -/
def pcb11y : PCB := { pid := 11, parentPid := 0, pstate := PState.ready, waitingFor := 0 }

/-- Boot-like base state for the iterated-send run: PID 10 runs, PID 11 is
Ready on the queue (so ipc_send can find it), next_msg_id has its initial
value 1 (ipc_init). -/
def sBase : KState :=
  { current := some 10, ready := [11], procs := [pcb10r, pcb11y],
    mailboxes := [], nextMsgId := 1 }

/-- The user message sent on every iteration: empty payload, type 1.  Its
sender_pid field is deliberately 77 (a lie) to exercise the kernel's
overwrite of the sender. -/
def msgC : AbiMsg :=
  { msgId := 0, senderPid := 77, receiverPid := 11, msgType := 1, flags := 0,
    timestamp := 0, dataSize := 0, data := [] }

/-- One iteration of ipc_send(11, msgC) from the current state. -/
def sendStep (s : KState) : KState :=
  match ipc_send s 11 (some msgC) with
  | some (_, s1) => s1
  | none => s

/-- The kernel state after k sends from sBase. -/
def sendN : Nat → KState
  | 0 => sBase
  | k + 1 => sendStep (sendN k)

/-- The kernel message the model enqueues for a send when next_msg_id is n. -/
def mkSent (n : Nat) : Msg :=
  { msgId := n, senderPid := 10, receiverPid := 11, msgType := 1, flags := 0,
    timestamp := 0, data := [] }

/-- The msg_id of the message enqueued by send number k (0-indexed): the
last message of PID 11's mailbox right after that send. -/
def lastSentId (k : Nat) : Option Nat :=
  ((mbGet (sendN (k + 1)).mailboxes 11).bind List.getLast?).map Msg.msgId

/-- Fresh process-table state at boot: no slots used, next_pid = 1, empty
capability table. -/
def ptInit : PTState :=
  { usedPids := [], nextPid := 1, caps := { caps := [], nextCapId := 1 } }

/-- The state one send from sBase produces (used by the C7 witness). -/
def sOne : KState :=
  { current := some 10, ready := [11], procs := [pcb10r, pcb11y],
    mailboxes := [(11, [mkSent 1])], nextMsgId := 2 }

/-- A mailbox already at the 100-message capacity (used by the C8 witness). -/
def q100 : List Msg :=
  (List.range 100).map (fun i =>
    { msgId := i, senderPid := 10, receiverPid := 11, msgType := 1, flags := 0,
      timestamp := 0, data := [] })

/-- A PCB with PID 0, the only identity capability_grant accepts (no such
process is ever created by the kernel). -/
def pcbZero : PCB := { pid := 0, parentPid := 0, pstate := PState.running, waitingFor := 0 }

/-- An empty capability table with next_cap_id = 1 (capability_init). -/
def capsInit : CapState := { caps := [], nextCapId := 1 }

/-- The PCB process_create builds from ptInit with parent 10. -/
def pcbNew : PCB := { pid := 1, parentPid := 10, pstate := PState.created, waitingFor := 0 }

/-- The process-table state after that process_create (capability table
unchanged because all three grants fail). -/
def ptAfter : PTState :=
  { usedPids := [1], nextPid := 2, caps := { caps := [], nextCapId := 1 } }

/-! ## Helper lemmas -/

/-- With an empty capability table every capability_check denies. -/
theorem capability_check_nil (pid ty pm t : Nat) :
    capability_check [] pid ty pm t = statusPermissionDenied := rfl

/-- capability_grant fails outright unless the current process has PID 0. -/
theorem capability_grant_nonzero (cur : Option PCB)
    (h : cur = none ∨ ∃ c, cur = some c ∧ c.pid ≠ 0) (cs : CapState)
    (pid ty pm rid : Nat) :
    capability_grant cur cs pid ty pm rid = (statusPermissionDenied, cs) := by
  rcases h with h | ⟨c, hc, hpid⟩
  · subst h; rfl
  · subst hc
    simp only [capability_grant]
    rw [if_pos hpid]

/-- One bounded enqueue keeps the mailbox within the 100-message capacity. -/
theorem queuePush_length (q : List Msg) (m : Msg) (h : q.length ≤ 100) :
    (queuePush q m).length ≤ 100 := by
  unfold queuePush
  dsimp only
  split
  · simp only [List.length_append, List.length_drop, List.length_cons,
      List.length_nil]
    omega
  · simp only [List.length_append, List.length_cons, List.length_nil]
    omega

/-- Any sequence of bounded enqueues keeps the mailbox within capacity. -/
theorem foldl_queuePush_length (ms : List Msg) :
    ∀ q : List Msg, q.length ≤ 100 → (ms.foldl queuePush q).length ≤ 100 := by
  induction ms with
  | nil => intro q hq; simpa using hq
  | cons m ms ih =>
      intro q hq
      rw [List.foldl_cons]
      exact ih _ (queuePush_length q m hq)

/-- Replacing the matching entries of an association list makes the lookup
return the new value, provided a matching entry exists. -/
theorem find?_map_replace (mbs : List (Nat × List Msg)) (pid : Nat) (q : List Msg)
    (h : (mbs.find? (fun e => e.fst == pid)).isSome = true) :
    (mbs.map (fun e => if e.fst == pid then (pid, q) else e)).find?
      (fun e => e.fst == pid) = some (pid, q) := by
  induction mbs with
  | nil => simp at h
  | cons e es ih =>
      by_cases he : (e.fst == pid) = true
      · simp only [List.map_cons, if_pos he]
        exact List.find?_cons_of_pos _ (by simp)
      · simp only [List.map_cons, if_neg he]
        rw [List.find?_cons_of_neg (es.map (fun e => if e.fst == pid then (pid, q) else e))
          (by simpa using he)]
        rw [List.find?_cons_of_neg es (by simpa using he)] at h
        exact ih h

/-- Appending a fresh entry to an association list with no matching entry
makes the lookup return it. -/
theorem find?_append_absent (mbs : List (Nat × List Msg)) (pid : Nat) (q : List Msg)
    (h : mbs.find? (fun e => e.fst == pid) = none) :
    ((mbs ++ [(pid, q)]).find? (fun e => e.fst == pid)) = some (pid, q) := by
  induction mbs with
  | nil =>
      simp only [List.nil_append]
      exact List.find?_cons_of_pos _ (by simp)
  | cons e es ih =>
      by_cases he : (e.fst == pid) = true
      · rw [List.find?_cons_of_pos es he] at h
        exact absurd h (by simp)
      · rw [List.find?_cons_of_neg es (by simpa using he)] at h
        simp only [List.cons_append]
        rw [List.find?_cons_of_neg (es ++ [(pid, q)]) (by simpa using he)]
        exact ih h

/-- Reading back the mailbox just written by mbSet. -/
theorem mbGet_mbSet (mbs : List (Nat × List Msg)) (pid : Nat) (q : List Msg) :
    mbGet (mbSet mbs pid q) pid = some q := by
  unfold mbGet mbSet
  by_cases h : (mbs.find? (fun e => e.fst == pid)).isSome = true
  · rw [if_pos h, find?_map_replace mbs pid q h]
    rfl
  · rw [if_neg h, find?_append_absent mbs pid q (Option.not_isSome_iff_eq_none.mp h)]
    rfl

/-- ipc_wakeup_receiver never touches the mailboxes. -/
theorem wakeup_mailboxes (s : KState) (pid : Nat) :
    (ipc_wakeup_receiver s pid).mailboxes = s.mailboxes := by
  unfold ipc_wakeup_receiver scheduler_unblock_process
  rcases scheduler_find_process s pid with _ | p
  · rfl
  · dsimp only
    split
    · rcases lookupProc s pid with _ | p2
      · rfl
      · dsimp only
        split <;> rfl
    · rfl

/-- One iterated send evaluated symbolically in the mailbox map and the
message-id counter: the receiver is found on the ready queue, the kernel
message carries the counter value and sender PID 10, the counter advances
modulo 2^32, and the wakeup is a no-op because PID 11 is Ready. -/
theorem sendStep_eq (mbs : List (Nat × List Msg)) (nid : Nat) :
    sendStep { current := some 10, ready := [11], procs := [pcb10r, pcb11y],
               mailboxes := mbs, nextMsgId := nid } =
    { current := some 10, ready := [11], procs := [pcb10r, pcb11y],
      mailboxes := mbSet mbs 11 (queuePush ((mbGet mbs 11).getD []) (mkSent nid)),
      nextMsgId := (nid + 1) % 2 ^ 32 } := rfl

/-- Shape of the state after k iterated sends: scheduler fields fixed and
next_msg_id = (1 + k) % 2^32. -/
theorem sendN_closed (k : Nat) : ∃ mbs, sendN k =
    { current := some 10, ready := [11], procs := [pcb10r, pcb11y],
      mailboxes := mbs, nextMsgId := (1 + k) % 2 ^ 32 } := by
  induction k with
  | zero => exact ⟨[], by decide⟩
  | succ k ih =>
      obtain ⟨mbs, hm⟩ := ih
      refine ⟨mbSet mbs 11 (queuePush ((mbGet mbs 11).getD [])
        (mkSent ((1 + k) % 2 ^ 32))), ?_⟩
      show sendStep (sendN k) = _
      rw [hm, sendStep_eq]
      congr 1
      rw [Nat.mod_add_mod]
      congr 1

/-- The message enqueued by send number k carries msg_id (1 + k) % 2^32. -/
theorem lastSentId_eq (k : Nat) : lastSentId k = some ((1 + k) % 2 ^ 32) := by
  obtain ⟨mbs, hm⟩ := sendN_closed k
  unfold lastSentId
  have hstep : sendN (k + 1) = sendStep (sendN k) := rfl
  rw [hstep, hm, sendStep_eq]
  dsimp only
  rw [mbGet_mbSet]
  have hl : ∀ (l : List Msg) (m : Msg), (l ++ [m]).getLast? = some m :=
    fun l m => List.getLast?_concat l
  simp only [queuePush, Option.some_bind]
  rw [hl]
  rfl

/-! ## Claim theorems -/

/-- C1.  The claim states that after the syscall dispatcher runs, the trap
frame's saved eax slot equals the handler's result.  The code cannot do
this: syscall_handler receives eax by value and its final assignment
(eax = result) is a dead store, so the frame after dispatch equals the
frame before.  Concretely, for a frame invoking syscall 0xFF the dispatcher
computes STATUS_INVALID_PARAM (-2) but the frame's eax slot still holds
0xFF, not the 32-bit image 0xFFFFFFFE of that status. -/
theorem C1_result_never_reaches_frame :
    (∀ (f : TrapFrame) (cur : Option PCB) (caps : List Cap) (t : Nat) (hr : Int),
        syscall_dispatch_frame f cur caps t hr = f) ∧
    (syscall_dispatch_frame fC1 (some pcbOne) [] 0
        (syscall_handler_localEax 0xFF (some pcbOne) [] 0 0)).eax = 0xFF ∧
    syscall_handler_localEax 0xFF (some pcbOne) [] 0 0 = statusInvalidParam ∧
    statusToU32 statusInvalidParam ≠ 0xFF :=
  ⟨fun _ _ _ _ _ => rfl, rfl, by decide, by decide⟩

/-- C2.  The claim states that an ipc_send to an existing Blocked process
succeeds, enqueues the message and makes the target Ready.  In the code
scheduler_find_process walks only the ready queue and the current process,
so a Blocked target (on no queue, not current) is not found: the send
returns STATUS_NOT_FOUND (-5) and the state is unchanged - no message is
enqueued and the target stays Blocked. -/
theorem C2_send_to_blocked_target_fails :
    lookupProc sC2 11 = some pcbB ∧
    pcbB.pstate = PState.blocked ∧
    scheduler_find_process sC2 11 = none ∧
    ipc_send sC2 11 (some mC2) = some (statusNotFound, sC2) := by decide

/-- C3.  The claim states that a blocking receive with no matching message
marks the caller Blocked with waiting_for = from_pid and repeats the scan
on resumption, so success implies a message was delivered.  In the code
ipc_receive blocks and then immediately returns STATUS_SUCCESS without
re-scanning, without copying anything into the user buffer, and without
ever writing waiting_for = from_pid (it stays 0).  The non-blocking branch
does return STATUS_NOT_FOUND as claimed. -/
theorem C3_blocking_receive_no_rescan :
    ipc_receive sC3 10 true true = (statusSuccess, none, sC3after) ∧
    pstateOf sC3after 11 = some PState.blocked ∧
    waitingOf sC3after 11 = some 0 ∧
    ipc_receive sC3 10 true false = (statusNotFound, none, sC3) := by decide

/-- C5.  The claim states that scheduler_yield with a non-empty ready queue
re-enqueues a still-Running current task at the tail and marks it Ready.
The code instead tests for state PROCESS_READY, so a Running current task
is not re-enqueued and keeps state Running: from current = 1 (Running) and
queue [2], yield produces current = 2 (Running, as claimed for the head)
but an empty queue with task 1 neither queued, nor current, nor Ready. -/
theorem C5_running_task_not_reenqueued :
    scheduler_yield sC5 = sC5after ∧
    sC5after.current = some 2 ∧
    pstateOf sC5after 2 = some PState.running ∧
    sC5after.ready = [] ∧
    pstateOf sC5after 1 = some PState.running := by decide

/-- C6.  The claim states that mapping with user-bit flags sets the user
bit of the covering PDE.  The code writes the PDE as table | 0x03 and never
consults the requested flags for it: after memory_map_page(pd, 0x800000,
0x800000, 0x07) on a fresh directory the PDE (index 2) is present with the
user bit clear while the PTE carries the user bit, violating the claimed
invariant. -/
theorem C6_pde_user_bit_not_propagated :
    entGet (memory_map_page mmC6 0x800000 0x800000 0x07).pd 2 = 0x500003 ∧
    entGet (memory_map_page mmC6 0x800000 0x800000 0x07).pd 2 &&& 0x01 = 0x01 ∧
    entGet (memory_map_page mmC6 0x800000 0x800000 0x07).pd 2 &&& 0x04 = 0 ∧
    entGet (tblGet (memory_map_page mmC6 0x800000 0x800000 0x07).tables 0x500000) 0
      = 0x800007 ∧
    0x800007 &&& 0x04 ≠ 0 := by decide

/-- C9.  The claim states that the capability gate is omitted for the yield
syscall (0x03).  The code runs capability_check before every table entry,
including yield: with the (always empty, see C4) capability table the gate
rejects yield with PERMISSION_DENIED and process_yield is never invoked. -/
theorem C9_yield_not_capability_exempt :
    syscall_gate 0x03 (some pcbOne) [] 0 = SyscallOutcome.rejectPermission ∧
    syscall_handler_localEax 0x03 (some pcbOne) [] 0 statusSuccess
      = statusPermissionDenied := by decide

/-- C10 counterexample.  The claim states that an out-of-range or
unregistered syscall number yields NOT_IMPLEMENTED (-8); the code computes
STATUS_INVALID_PARAM (-2) for both cases (0x05 is in range but has no
handler, 300 is out of range), so the claim is false at these inputs. -/
theorem C10_counterexample :
    syscall_handler_localEax 0x05 (some pcbOne) [] 0 0 = statusInvalidParam ∧
    syscall_handler_localEax 300 (some pcbOne) [] 0 0 = statusInvalidParam ∧
    ¬ syscall_handler_localEax 0x05 (some pcbOne) [] 0 0 = statusNotImplemented ∧
    statusInvalidParam ≠ statusNotImplemented := by decide

/-- C10 amended.  For every syscall number that is out of range or has no
registered handler, the dispatcher computes INVALID_PARAM (-2) - the value
the repository's own test suite asserts - rather than NOT_IMPLEMENTED. -/
theorem C10_amended_invalid_param (eax : Nat) (cur : Option PCB)
    (caps : List Cap) (t : Nat) (hr : Int)
    (h : 256 ≤ eax ∨ syscallRegistered eax = false) :
    syscall_handler_localEax eax cur caps t hr = statusInvalidParam := by
  unfold syscall_handler_localEax syscall_gate
  rw [if_pos h]

/-- Witness for C10: the amended theorem applied at eax = 0x05. -/
theorem C10_amended_witness :
    syscall_handler_localEax 0x05 (some pcbA) [] 0 5 = statusInvalidParam :=
  C10_amended_invalid_param 0x05 (some pcbA) [] 0 5 (Or.inr (by decide))

/-- C4.  capability_grant succeeds only when the current process exists and
has PID 0; process_create only ever returns PCBs with a non-zero PID; when
the current process is absent or has a non-zero PID (the only situations
the kernel produces), all three grants inside process_create fail and the
capability table is unchanged, so every created process holds zero
capabilities; capability_check over the (hence perpetually empty) table
denies, and the dispatcher rejects every registered syscall from any
process with PERMISSION_DENIED. -/
theorem C4_capability_grants_always_fail :
    (∀ (cur : Option PCB) (cs : CapState) (pid ty pm rid : Nat),
        (capability_grant cur cs pid ty pm rid).fst = statusSuccess →
        ∃ c, cur = some c ∧ c.pid = 0) ∧
    (∀ (cur : Option PCB) (s : PTState) (pp : Nat) (p : PCB) (s' : PTState),
        process_create cur s pp = (some p, s') → p.pid ≠ 0) ∧
    (∀ (cur : Option PCB) (s : PTState) (pp : Nat),
        (cur = none ∨ ∃ c, cur = some c ∧ c.pid ≠ 0) →
        (process_create cur s pp).snd.caps = s.caps) ∧
    (∀ pid ty pm t : Nat,
        capability_check [] pid ty pm t = statusPermissionDenied) ∧
    (∀ (eax : Nat) (c : PCB) (t : Nat) (hr : Int),
        eax < 256 → syscallRegistered eax = true →
        syscall_handler_localEax eax (some c) [] t hr = statusPermissionDenied) := by
  refine ⟨?_, ?_, ?_, fun pid ty pm t => capability_check_nil pid ty pm t, ?_⟩
  · intro cur cs pid ty pm rid h
    cases cur with
    | none =>
        simp only [capability_grant, statusPermissionDenied, statusSuccess] at h
        omega
    | some c =>
        by_cases hp : c.pid = 0
        · exact ⟨c, rfl, hp⟩
        · rw [capability_grant_nonzero (some c) (Or.inr ⟨c, rfl, hp⟩)] at h
          simp only [statusPermissionDenied, statusSuccess] at h
          omega
  · intro cur s pp p s' h
    unfold process_create at h
    dsimp only at h
    split at h
    · simp at h
    · split at h
      · simp at h
      · next hr0 =>
          simp only [Prod.mk.injEq, Option.some.injEq] at h
          obtain ⟨hp, _⟩ := h
          rw [← hp]
          exact hr0
  · intro cur s pp h
    unfold process_create
    split
    · rfl
    · simp only [capability_grant_nonzero cur h]
      split <;> rfl
  · intro eax c t hr h1 h2
    unfold syscall_handler_localEax syscall_gate
    have hcond : ¬ (256 ≤ eax ∨ syscallRegistered eax = false) := by
      push_neg
      exact ⟨by omega, by simp [h2]⟩
    rw [if_neg hcond]
    dsimp only
    rw [capability_check_nil c.pid eax 0 t]
    rw [if_pos (by decide)]

/-- Witness for C4: each conjunct applied at concrete inputs - a PID-0
caller makes grant succeed, a concrete process_create from a fresh table
yields PID 1 and leaves the capability table empty, and the gate denies the
ipc_send syscall (0x20) for a running PID-1 process. -/
theorem C4_witness :
    (∃ c, (some pcbZero : Option PCB) = some c ∧ c.pid = 0) ∧
    pcbNew.pid ≠ 0 ∧
    (process_create (some pcbA) ptInit 10).snd.caps = ptInit.caps ∧
    capability_check [] 1 0x20 0 0 = statusPermissionDenied ∧
    syscall_handler_localEax 0x20 (some pcbOne) [] 0 0 = statusPermissionDenied :=
  ⟨C4_capability_grants_always_fail.1 (some pcbZero) capsInit 5 capProcess 0x18 0
      (by decide),
   C4_capability_grants_always_fail.2.1 (some pcbA) ptInit 10 pcbNew ptAfter
      (by decide),
   C4_capability_grants_always_fail.2.2.1 (some pcbA) ptInit 10
      (Or.inr ⟨pcbA, rfl, by decide⟩),
   C4_capability_grants_always_fail.2.2.2.1 1 0x20 0 0,
   C4_capability_grants_always_fail.2.2.2.2 0x20 pcbOne 0 0 (by decide) (by decide)⟩

/-- C7 counterexample.  The claim asserts msg_id is strictly increasing
across ALL sends.  next_msg_id is a uint32_t, so in the iterated-send run
from sBase the message of send number 0 has msg_id 1 while the message of
send number 2^32 - 1 has msg_id 0: a later send whose msg_id is not
greater than an earlier one, refuting the unbounded monotonicity claim. -/
theorem C7_counterexample :
    lastSentId 0 = some 1 ∧
    lastSentId (2 ^ 32 - 1) = some 0 ∧
    ¬ (∀ j k a b : Nat, j < k →
        lastSentId j = some a → lastSentId k = some b → a < b) := by
  have h0 : lastSentId 0 = some 1 := by rw [lastSentId_eq]; norm_num
  have h1 : lastSentId (2 ^ 32 - 1) = some 0 := by rw [lastSentId_eq]; norm_num
  refine ⟨h0, h1, fun hmono => ?_⟩
  have hcon := hmono 0 (2 ^ 32 - 1) 1 0 (by norm_num) h0 h1
  omega

/-- C7 amended.  Every successful ipc_send enqueues at the tail of the
target's mailbox a kernel message whose sender_pid is the calling process's
PID (the user-supplied sender field is ignored) and whose msg_id is the
current next_msg_id; and msg_id is strictly increasing across sends as long
as fewer than 2^32 messages have been sent (the uint32_t counter wraps on
send number 2^32 - 1). -/
theorem C7_amended_sender_and_bounded_monotonicity :
    (∀ (s : KState) (pid : Nat) (m : AbiMsg) (st : Int) (s' : KState),
        ipc_send s pid (some m) = some (st, s') → st = statusSuccess →
        ∃ q km, mbGet s'.mailboxes pid = some (q ++ [km]) ∧
          some km.senderPid = s.current ∧ km.msgId = s.nextMsgId) ∧
    (∀ j k a b : Nat, j < k → k < 2 ^ 32 - 1 →
        lastSentId j = some a → lastSentId k = some b → a < b) := by
  constructor
  · intro s pid m st s' h hst
    subst hst
    simp only [ipc_send] at h
    rcases hf : scheduler_find_process s pid with _ | tp
    · rw [hf] at h
      dsimp only at h
      simp only [Option.some.injEq, Prod.mk.injEq] at h
      obtain ⟨hbad, _⟩ := h
      simp [statusNotFound, statusSuccess] at hbad
    · rw [hf] at h
      dsimp only at h
      split at h
      · simp only [Option.some.injEq, Prod.mk.injEq] at h
        obtain ⟨hbad, _⟩ := h
        simp [statusInvalidParam, statusSuccess] at hbad
      · rcases hc : s.current with _ | c
        · rw [hc] at h
          dsimp only at h
          cases h
        · rw [hc] at h
          dsimp only at h
          rcases hl : lookupProc s c with _ | cp
          · rw [hl] at h
            dsimp only at h
            cases h
          · rw [hl] at h
            dsimp only at h
            simp only [Option.some.injEq, Prod.mk.injEq] at h
            obtain ⟨-, hs'⟩ := h
            have hpid : (cp.pid == c) = true := by
              have := List.find?_some hl
              simpa using this
            subst hs'
            rw [wakeup_mailboxes]
            unfold ipc_add_to_queue
            dsimp only
            rw [mbGet_mbSet]
            refine ⟨_, _, rfl, ?_, rfl⟩
            have hpc : cp.pid = c := by simpa using hpid
            simp [hpc]
  · intro j k a b hjk hk ha hb
    rw [lastSentId_eq] at ha hb
    have hpow : (2 : Nat) ^ 32 = 4294967296 := by norm_num
    have haj : a = (1 + j) % 2 ^ 32 := by
      simpa using ha.symm
    have hbk : b = (1 + k) % 2 ^ 32 := by
      simpa using hb.symm
    rw [Nat.mod_eq_of_lt (by omega)] at haj
    rw [Nat.mod_eq_of_lt (by omega)] at hbk
    omega

/-- Witness for C7: the amended theorem applied to the concrete first send
from sBase (delivering msg_id 1 from sender 10) and to the first two sends
of the iterated run (msg_id 1 < msg_id 2). -/
theorem C7_amended_witness :
    (∃ q km, mbGet sOne.mailboxes 11 = some (q ++ [km]) ∧
        some km.senderPid = sBase.current ∧ km.msgId = sBase.nextMsgId) ∧
    1 < 2 :=
  ⟨C7_amended_sender_and_bounded_monotonicity.1 sBase 11 msgC statusSuccess sOne
      (by decide) rfl,
   C7_amended_sender_and_bounded_monotonicity.2 0 1 1 2 (by decide) (by decide)
      (by decide) (by decide)⟩

set_option maxRecDepth 100000 in
/-- C8.  The mailbox never exceeds 100 messages under any sequence of
enqueues; an enqueue into a full mailbox first drops the oldest (head)
message; and after the 101 iterated sends from sBase the target's mailbox
holds exactly the messages with msg_id 2..101 (message 1 was dropped). -/
theorem C8_mailbox_capacity :
    (∀ ms : List Msg, (ms.foldl queuePush []).length ≤ 100) ∧
    (∀ (q : List Msg) (m : Msg), q.length = 100 → queuePush q m = q.drop 1 ++ [m]) ∧
    (mbGet (sendN 101).mailboxes 11).map (fun q => q.map Msg.msgId) =
      some ((List.range 100).map (fun i => i + 2)) := by
  refine ⟨?_, ?_, ?_⟩
  · intro ms
    exact foldl_queuePush_length ms [] (by simp)
  · intro q m h
    unfold queuePush
    rw [if_pos (le_of_eq h.symm)]
  · decide

/-- Witness for C8: the drop-oldest law applied to a concrete mailbox of
exactly 100 messages. -/
theorem C8_witness :
    queuePush q100 (mkSent 999) = q100.drop 1 ++ [mkSent 999] :=
  C8_mailbox_capacity.2.1 q100 (mkSent 999) (by decide)

end CatOS
